import Mathlib

/-!
Verification development for the mini-golf physics core (game.py).

The data model and every operation below are shallow embeddings of the
Python source: `Ball`, `MovingPlatform`, `Repulsor` and their methods are
translated field by field and branch by branch, with Python floats modelled
as elements of a linear ordered field (rationals for executable instances,
reals where the source uses `math.cos`, `math.sin` or `math.hypot`).
Mutating methods become functions returning the updated record.
-/

namespace MiniGolf

variable {α : Type} [LinearOrderedField α]

/-- The side of a rectangle returned by obstacle resolution
(the source returns the strings "left", "right", "top", "bottom"). -/
inductive Side : Type
  | left
  | right
  | top
  | bottom
  deriving DecidableEq, Repr

/-- A collision rectangle `(x, y, width, height)` as produced by
`Obstacle.get_collision_rect` in the source. -/
structure Rect (α : Type) : Type where
  x : α
  y : α
  w : α
  h : α
  deriving DecidableEq, Repr

/-- The state of the player ball: position, radius, velocity, the two motion
flags and the friction coefficient, exactly the fields `Ball.__init__` sets
(the pygame image is presentation and not part of the state). -/
structure Ball (α : Type) : Type where
  x : α
  y : α
  radius : α
  velocity_x : α
  velocity_y : α
  is_moving : Bool
  teleporting : Bool
  friction : α
  deriving DecidableEq, Repr

/-- `Ball.__init__(x, y, radius, image)`: zero velocity, both flags false,
friction 0.98. -/
def mkBall (x y radius : α) : Ball α :=
  { x := x, y := y, radius := radius, velocity_x := 0, velocity_y := 0,
    is_moving := false, teleporting := false, friction := 0.98 }

/-- `Ball.stop`. -/
def Ball.stop (b : Ball α) : Ball α :=
  { b with is_moving := false, velocity_x := 0, velocity_y := 0 }

/-- `Ball.update(dt)`: while moving and not teleporting, apply friction to the
velocity, add the (post-friction) velocity to the position, and force-stop
when both components are below 0.1 in magnitude. -/
def Ball.update (b : Ball α) : Ball α :=
  if b.is_moving && !b.teleporting then
    let vx := b.velocity_x * b.friction
    let vy := b.velocity_y * b.friction
    let moved : Ball α := { b with velocity_x := vx, velocity_y := vy,
                                   x := b.x + vx, y := b.y + vy }
    if |vx| < 0.1 ∧ |vy| < 0.1 then moved.stop else moved
  else b

/-- `Ball.handle_border_collision(border_thickness, window_width,
window_height)`: the four sequential clamp-and-damp branches of the source,
in source order (left, right, top, bottom). -/
def Ball.handle_border_collision (b : Ball α) (bt W H : α) : Ball α :=
  let b1 := if b.x - b.radius < bt then
              { b with x := bt + b.radius, velocity_x := b.velocity_x * (-0.8) }
            else b
  let b2 := if b1.x + b1.radius > W - bt then
              { b1 with x := W - bt - b1.radius, velocity_x := b1.velocity_x * (-0.8) }
            else b1
  let b3 := if b2.y - b2.radius < bt then
              { b2 with y := bt + b2.radius, velocity_y := b2.velocity_y * (-0.8) }
            else b2
  if b3.y + b3.radius > H - bt then
    { b3 with y := H - bt - b3.radius, velocity_y := b3.velocity_y * (-0.8) }
  else b3

/-- `Ball.handle_obstacle_collision(obstacle)`: bounding-extent overlap test,
four penetration depths, minimum of the four, then the source's comparison
chain (left, right, top, else bottom).  Returns the updated ball and the hit
side (`none` when there is no overlap, as the source returns `None`). -/
def Ball.handle_obstacle_collision (b : Ball α) (o : Rect α) : Ball α × Option Side :=
  if b.x + b.radius > o.x ∧ b.x - b.radius < o.x + o.w ∧
     b.y + b.radius > o.y ∧ b.y - b.radius < o.y + o.h then
    let pl := |b.x + b.radius - o.x|
    let pr := |b.x - b.radius - (o.x + o.w)|
    let pt := |b.y + b.radius - o.y|
    let pb := |b.y - b.radius - (o.y + o.h)|
    let mp := min pl (min pr (min pt pb))
    if mp = pl then
      ({ b with x := o.x - b.radius, velocity_x := b.velocity_x * (-0.8) }, some .left)
    else if mp = pr then
      ({ b with x := o.x + o.w + b.radius, velocity_x := b.velocity_x * (-0.8) }, some .right)
    else if mp = pt then
      ({ b with y := o.y - b.radius, velocity_y := b.velocity_y * (-0.8) }, some .top)
    else
      ({ b with y := o.y + o.h + b.radius, velocity_y := b.velocity_y * (-0.8) }, some .bottom)
  else (b, none)

/-- The motion mode of a `MovingPlatform` (the source's `move_type` string). -/
inductive MoveType : Type
  | vertical
  | horizontal
  | random
  deriving DecidableEq, Repr

/-- A moving platform with all mode-specific keyword fields present
(`MovingPlatform.__init__`); `update` only reads the fields its mode uses. -/
structure MovingPlatform (α : Type) : Type where
  x : α
  y : α
  width : α
  height : α
  move_type : MoveType
  base_x : α
  base_y : α
  amp : α
  speed : α
  dir : α
  dx : α
  dy : α
  deriving DecidableEq, Repr

/-- `MovingPlatform.update(dt, border_thickness, window_width,
window_height)`: oscillating modes move, test the amplitude on the moved
coordinate, and on reaching it flip the direction and move once more; random
mode drifts and reflects its drift at the borders without clamping. -/
def MovingPlatform.update (p : MovingPlatform α) (bt W H : α) : MovingPlatform α :=
  match p.move_type with
  | .vertical =>
    let y1 := p.y + p.speed * p.dir
    if |y1 - p.base_y| ≥ p.amp then
      { p with y := y1 + p.speed * (-p.dir), dir := -p.dir }
    else
      { p with y := y1 }
  | .horizontal =>
    let x1 := p.x + p.speed * p.dir
    if |x1 - p.base_x| ≥ p.amp then
      { p with x := x1 + p.speed * (-p.dir), dir := -p.dir }
    else
      { p with x := x1 }
  | .random =>
    let x1 := p.x + p.dx
    let y1 := p.y + p.dy
    let dx1 := if x1 < bt ∨ x1 + p.width > W - bt then -p.dx else p.dx
    let dy1 := if y1 < bt ∨ y1 + p.height > H - bt then -p.dy else p.dy
    { p with x := x1, y := y1, dx := dx1, dy := dy1 }

/-- `Ball.handle_platform_collision(platform)`: obstacle resolution against
the platform's rectangle, then the oscillating-platform speed transfer
(half the signed platform speed on the matching axis). -/
def Ball.handle_platform_collision (b : Ball α) (p : MovingPlatform α) : Ball α :=
  let r := b.handle_obstacle_collision ⟨p.x, p.y, p.width, p.height⟩
  match r.2 with
  | none => r.1
  | some s =>
    if (s = .left ∨ s = .right) ∧ p.move_type = .horizontal then
      { r.1 with velocity_x := r.1.velocity_x + p.speed * p.dir * 0.5 }
    else if (s = .top ∨ s = .bottom) ∧ p.move_type = .vertical then
      { r.1 with velocity_y := r.1.velocity_y + p.speed * p.dir * 0.5 }
    else r.1

/-- A repulsor: a drifting circle (`Repulsor.__init__`). -/
structure Repulsor (α : Type) : Type where
  x : α
  y : α
  radius : α
  dx : α
  dy : α
  deriving DecidableEq, Repr

/-- `math.hypot(a, b)` over the reals. -/
noncomputable def hypot (a b : ℝ) : ℝ := Real.sqrt (a ^ 2 + b ^ 2)

/-- `math.radians(d)`. -/
noncomputable def radians (d : ℝ) : ℝ := d * (Real.pi / 180)

/-- `Ball.launch(angle_degrees, power, max_power)`: sets the moving flag and
the velocity from the linear power scaling `(power / max_power) * 15` and the
cosine and negated sine of the angle. -/
noncomputable def Ball.launch (b : Ball ℝ) (angle_degrees power max_power : ℝ) : Ball ℝ :=
  let speed := (power / max_power) * 15
  { b with is_moving := true,
           velocity_x := speed * Real.cos (radians angle_degrees),
           velocity_y := -speed * Real.sin (radians angle_degrees) }

/-- `Ball.handle_repulsor_collision(repulsor, current_level)`: on circle
overlap, push the ball out along the centre-to-centre normal (fixed +x push
when the centres coincide), then the level-conditioned rebound: level 4 sets
the velocity to `4 * max(incoming, 1)` along the normal, level 5 reverses a
positive incoming velocity at four times its speed (no-op at zero incoming
speed), and all other levels scale the velocity by -1.1.  Returns the
updated ball and whether contact occurred. -/
noncomputable def Ball.handle_repulsor_collision (b : Ball ℝ) (rep : Repulsor ℝ)
    (current_level : ℤ) : Ball ℝ × Bool :=
  let dx := b.x - rep.x
  let dy := b.y - rep.y
  let dist := hypot dx dy
  if dist < b.radius + rep.radius then
    let pushed : Ball ℝ × ℝ × ℝ :=
      if dist > 0 then
        let overlap := (b.radius + rep.radius) - dist
        let push_amount := overlap + 0.1
        ({ b with x := b.x + dx / dist * push_amount,
                  y := b.y + dy / dist * push_amount }, dx / dist, dy / dist)
      else
        ({ b with x := b.x + ((b.radius + rep.radius) + 0.1) }, 1, 0)
    let b1 := pushed.1
    let norm_dx := pushed.2.1
    let norm_dy := pushed.2.2
    let b2 :=
      if current_level = 4 then
        let incoming := hypot b1.velocity_x b1.velocity_y
        let ref_speed := max incoming 1
        { b1 with velocity_x := norm_dx * (4 * ref_speed),
                  velocity_y := norm_dy * (4 * ref_speed) }
      else if current_level = 5 then
        let incoming := hypot b1.velocity_x b1.velocity_y
        if incoming > 0 then
          { b1 with velocity_x := -4 * incoming * (b1.velocity_x / incoming),
                    velocity_y := -4 * incoming * (b1.velocity_y / incoming) }
        else b1
      else
        { b1 with velocity_x := b1.velocity_x * (-1.1),
                  velocity_y := b1.velocity_y * (-1.1) }
    (b2, true)
  else (b, false)

/-- `Ball.teleport_to_hole(hole_x, hole_y, hole_sound)`: within distance 2,
snap onto the hole, zero the velocity and signal completion; otherwise move a
`min(0.2, distance / 10)` fraction of the way and damp the velocity by 0.8
(the sound side effect is presentation and dropped). -/
noncomputable def Ball.teleport_to_hole (b : Ball ℝ) (hole_x hole_y : ℝ) : Ball ℝ × Bool :=
  let dx := hole_x - b.x
  let dy := hole_y - b.y
  let distance := hypot dx dy
  if distance < 2 then
    ({ b with x := hole_x, y := hole_y, velocity_x := 0, velocity_y := 0,
              is_moving := false }, true)
  else
    let move_factor := min 0.2 (distance / 10)
    ({ b with x := b.x + dx * move_factor, y := b.y + dy * move_factor,
              velocity_x := b.velocity_x * 0.8,
              velocity_y := b.velocity_y * 0.8 }, false)

/-- The scratch state of the trajectory simulation in
`MiniGolfGame.predict_trajectory`: `sim_x`, `sim_y`, `vel_x`, `vel_y`. -/
structure SimState (α : Type) : Type where
  x : α
  y : α
  vx : α
  vy : α
  deriving DecidableEq, Repr

/-- The predictor's integration: advance the position by the current
velocity, then apply the friction factor 0.98 to the velocity (this order is
taken from the source: `sim_x += vel_x` before `vel_x *= friction`). -/
def simIntegrate (s : SimState α) : SimState α :=
  { x := s.x + s.vx, y := s.y + s.vy, vx := s.vx * 0.98, vy := s.vy * 0.98 }

/-- The predictor's border bounce with the game constants
(BORDER_THICKNESS 30, WINDOW 800x600, BALL_RADIUS 10): four sequential
clamp-and-damp branches exactly as in the source loop. -/
def simBorders (s : SimState α) : SimState α :=
  let s1 := if s.x - 10 < 30 then { s with x := 30 + 10, vx := s.vx * (-0.8) } else s
  let s2 := if s1.x + 10 > 800 - 30 then { s1 with x := 800 - 30 - 10, vx := s1.vx * (-0.8) } else s1
  let s3 := if s2.y - 10 < 30 then { s2 with y := 30 + 10, vy := s2.vy * (-0.8) } else s2
  if s3.y + 10 > 600 - 30 then { s3 with y := 600 - 30 - 10, vy := s3.vy * (-0.8) } else s3

/-- The predictor's per-obstacle resolution (BALL_RADIUS 10): the overlap
test, the four penetration depths, the minimum, and the source's comparison
chain, exactly as in the loop body of `predict_trajectory`. -/
def simResolveRect (s : SimState α) (o : Rect α) : SimState α :=
  if s.x + 10 > o.x ∧ s.x - 10 < o.x + o.w ∧
     s.y + 10 > o.y ∧ s.y - 10 < o.y + o.h then
    let pl := |s.x + 10 - o.x|
    let pr := |s.x - 10 - (o.x + o.w)|
    let pt := |s.y + 10 - o.y|
    let pb := |s.y - 10 - (o.y + o.h)|
    let mp := min pl (min pr (min pt pb))
    if mp = pl then { s with x := o.x - 10, vx := s.vx * (-0.8) }
    else if mp = pr then { s with x := o.x + o.w + 10, vx := s.vx * (-0.8) }
    else if mp = pt then { s with y := o.y - 10, vy := s.vy * (-0.8) }
    else { s with y := o.y + o.h + 10, vy := s.vy * (-0.8) }
  else s

/-- One iteration of the predictor's simulation loop: integrate, resolve the
borders, then resolve every obstacle of the snapshot in course order. -/
def simStep (obstacles : List (Rect α)) (s : SimState α) : SimState α :=
  obstacles.foldl simResolveRect (simBorders (simIntegrate s))

/-- The predictor's loop with its remaining fuel: each iteration runs
`simStep`, appends the resulting point, and stops early when both velocity
components are below 0.1 in magnitude (the source breaks out of its
200-iteration for-loop). -/
def predictLoop (obstacles : List (Rect α)) : Nat → SimState α → List (α × α)
  | 0, _ => []
  | n + 1, s =>
    let s1 := simStep obstacles s
    (s1.x, s1.y) :: (if |s1.vx| < 0.1 ∧ |s1.vy| < 0.1 then [] else predictLoop obstacles n s1)

/-- `MiniGolfGame.predict_trajectory`: the start point followed by up to 200
simulated points, with the initial velocity derived from the sliders by the
same power scaling and angle decomposition as `Ball.launch`
(MAX_POWER 300). -/
noncomputable def predict_trajectory (obstacles : List (Rect ℝ))
    (start_x start_y angle power : ℝ) : List (ℝ × ℝ) :=
  let speed := (power / 300) * 15
  (start_x, start_y) ::
    predictLoop obstacles 200
      ⟨start_x, start_y, speed * Real.cos (radians angle),
       -speed * Real.sin (radians angle)⟩

/-- Spec-side selection of the resolution side: the side of minimum
penetration, ties resolved to the first compared side in the fixed order
left, right, top, bottom (the spec's words for the tie-break). -/
def minSide (pl pr pt pb : α) : Side :=
  if pl ≤ pr ∧ pl ≤ pt ∧ pl ≤ pb then .left
  else if pr ≤ pt ∧ pr ≤ pb then .right
  else if pt ≤ pb then .top
  else .bottom

/-- Spec-side resolution at a given side: clamp the centre just outside that
edge and scale the corresponding velocity component by -0.8. -/
def resolveAtSide (b : Ball α) (o : Rect α) : Side → Ball α
  | .left => { b with x := o.x - b.radius, velocity_x := b.velocity_x * (-0.8) }
  | .right => { b with x := o.x + o.w + b.radius, velocity_x := b.velocity_x * (-0.8) }
  | .top => { b with y := o.y - b.radius, velocity_y := b.velocity_y * (-0.8) }
  | .bottom => { b with y := o.y + o.h + b.radius, velocity_y := b.velocity_y * (-0.8) }

/-- The bounding-extent overlap condition of the obstacle collision test. -/
def overlaps (b : Ball α) (o : Rect α) : Prop :=
  b.x + b.radius > o.x ∧ b.x - b.radius < o.x + o.w ∧
  b.y + b.radius > o.y ∧ b.y - b.radius < o.y + o.h

instance (b : Ball α) (o : Rect α) : Decidable (overlaps b o) := by
  unfold overlaps; infer_instance

/-- Spec-side one step of an oscillating coordinate, written from the spec's
order of operations: move, check the amplitude, flip, move again.  Returns
the new coordinate and the new direction sign. -/
def oscillateStep (coord base amp speed dir : α) : α × α :=
  let moved := coord + speed * dir
  if |moved - base| ≥ amp then (moved + speed * (-dir), -dir) else (moved, dir)

/-- The wall-collision pass of the game loop: resolve each rectangle of the
snapshot against the ball in course order, keeping only the ball state (the
pure-collision effect, without platform speed transfer or repulsors). -/
def resolveObstaclesBall (b : Ball α) (obstacles : List (Rect α)) : Ball α :=
  obstacles.foldl (fun bb o => (bb.handle_obstacle_collision o).1) b

/-- Forget the flags of a ball, keeping the scratch quantities the predictor
simulates. -/
def toSim (b : Ball α) : SimState α :=
  { x := b.x, y := b.y, vx := b.velocity_x, vy := b.velocity_y }

/-- View a scratch simulation state as a live ball with the game's radius
and friction, moving and not teleporting. -/
def toBall (s : SimState α) : Ball α :=
  { x := s.x, y := s.y, radius := 10, velocity_x := s.vx, velocity_y := s.vy,
    is_moving := true, teleporting := false, friction := 0.98 }

/-- Integration in the predictor's order: position first (with the
pre-friction velocity), then friction. -/
def moveThenFriction (b : Ball α) : Ball α :=
  { b with x := b.x + b.velocity_x, y := b.y + b.velocity_y,
           velocity_x := b.velocity_x * b.friction,
           velocity_y := b.velocity_y * b.friction }

/-- Integration in the live ball's order: friction first, then position
(with the post-friction velocity). -/
def frictionThenMove (b : Ball α) : Ball α :=
  { b with velocity_x := b.velocity_x * b.friction,
           velocity_y := b.velocity_y * b.friction,
           x := b.x + b.velocity_x * b.friction,
           y := b.y + b.velocity_y * b.friction }

/-- Ball states reachable through the Ball operations from a freshly
constructed ball (is_moving false, zero velocity), applying any operation
with any arguments at any time. -/
inductive ReachableBall : Ball ℝ → Prop
  | init (x y radius : ℝ) : ReachableBall (mkBall x y radius)
  | launch (b : Ball ℝ) (angle power max_power : ℝ) :
      ReachableBall b → ReachableBall (b.launch angle power max_power)
  | stop (b : Ball ℝ) : ReachableBall b → ReachableBall b.stop
  | update (b : Ball ℝ) : ReachableBall b → ReachableBall b.update
  | border (b : Ball ℝ) (bt W H : ℝ) :
      ReachableBall b → ReachableBall (b.handle_border_collision bt W H)
  | obstacle (b : Ball ℝ) (o : Rect ℝ) :
      ReachableBall b → ReachableBall (b.handle_obstacle_collision o).1
  | platform (b : Ball ℝ) (p : MovingPlatform ℝ) :
      ReachableBall b → ReachableBall (b.handle_platform_collision p)
  | repulsor (b : Ball ℝ) (rep : Repulsor ℝ) (lvl : ℤ) :
      ReachableBall b → ReachableBall (b.handle_repulsor_collision rep lvl).1
  | teleport (b : Ball ℝ) (hx hy : ℝ) :
      ReachableBall b → ReachableBall (b.teleport_to_hole hx hy).1

/-- Ball states reachable as in `ReachableBall`, except that the platform and
repulsor collision handlers are only invoked on a moving ball — the guard the
game loop enforces (`if self.ball.is_moving and not self.ball.teleporting`). -/
inductive ReachableBallGuarded : Ball ℝ → Prop
  | init (x y radius : ℝ) : ReachableBallGuarded (mkBall x y radius)
  | launch (b : Ball ℝ) (angle power max_power : ℝ) :
      ReachableBallGuarded b → ReachableBallGuarded (b.launch angle power max_power)
  | stop (b : Ball ℝ) : ReachableBallGuarded b → ReachableBallGuarded b.stop
  | update (b : Ball ℝ) : ReachableBallGuarded b → ReachableBallGuarded b.update
  | border (b : Ball ℝ) (bt W H : ℝ) :
      ReachableBallGuarded b → ReachableBallGuarded (b.handle_border_collision bt W H)
  | obstacle (b : Ball ℝ) (o : Rect ℝ) :
      ReachableBallGuarded b → ReachableBallGuarded (b.handle_obstacle_collision o).1
  | platform (b : Ball ℝ) (p : MovingPlatform ℝ) :
      ReachableBallGuarded b → b.is_moving = true →
      ReachableBallGuarded (b.handle_platform_collision p)
  | repulsor (b : Ball ℝ) (rep : Repulsor ℝ) (lvl : ℤ) :
      ReachableBallGuarded b → b.is_moving = true →
      ReachableBallGuarded (b.handle_repulsor_collision rep lvl).1
  | teleport (b : Ball ℝ) (hx hy : ℝ) :
      ReachableBallGuarded b → ReachableBallGuarded (b.teleport_to_hole hx hy).1

section Theorems

/-- Helper: the source's minimum-then-comparison chain picks the side of
minimum penetration, ties resolved in the order left, right, top, bottom. -/
theorem minChain_spec (pl pr pt pb : α) :
    (if min pl (min pr (min pt pb)) = pl then Side.left
     else if min pl (min pr (min pt pb)) = pr then Side.right
     else if min pl (min pr (min pt pb)) = pt then Side.top
     else Side.bottom) = minSide pl pr pt pb := by
  by_cases h1 : pl ≤ pr ∧ pl ≤ pt ∧ pl ≤ pb
  · have hm : min pl (min pr (min pt pb)) = pl :=
      min_eq_left (le_min h1.1 (le_min h1.2.1 h1.2.2))
    rw [if_pos hm, minSide, if_pos h1]
  · have hpl : ¬ min pl (min pr (min pt pb)) = pl := by
      rw [min_eq_left_iff, le_min_iff, le_min_iff]
      tauto
    rw [if_neg hpl]
    by_cases h2 : pr ≤ pt ∧ pr ≤ pb
    · have hrl : pr ≤ pl := by
        by_contra hc
        push_neg at hc
        exact h1 ⟨hc.le, hc.le.trans h2.1, hc.le.trans h2.2⟩
      have hm : min pl (min pr (min pt pb)) = pr := by
        rw [show min pr (min pt pb) = pr from min_eq_left (le_min h2.1 h2.2)]
        exact min_eq_right hrl
      rw [if_pos hm, minSide, if_neg h1, if_pos h2]
    · by_cases h3 : pt ≤ pb
      · have htr : pt < pr := by
          by_contra hc
          push_neg at hc
          exact h2 ⟨hc, hc.trans h3⟩
        have htl : pt < pl := by
          by_contra hc
          push_neg at hc
          exact h1 ⟨hc.trans htr.le, hc, hc.trans h3⟩
        have hm : min pl (min pr (min pt pb)) = pt := by
          rw [show min pt pb = pt from min_eq_left h3,
              show min pr pt = pt from min_eq_right htr.le]
          exact min_eq_right htl.le
        have hner : ¬ min pl (min pr (min pt pb)) = pr := by
          rw [hm]
          exact htr.ne
        rw [if_neg hner, if_pos hm, minSide, if_neg h1, if_neg h2, if_pos h3]
      · push_neg at h3
        have hbr : pb < pr := by
          by_contra hc
          push_neg at hc
          exact h2 ⟨hc.trans h3.le, hc⟩
        have hbl : pb < pl := by
          by_contra hc
          push_neg at hc
          exact h1 ⟨hc.trans hbr.le, hc.trans h3.le, hc⟩
        have hm : min pl (min pr (min pt pb)) = pb := by
          rw [show min pt pb = pb from min_eq_right h3.le,
              show min pr pb = pb from min_eq_right hbr.le]
          exact min_eq_right hbl.le
        have hner : ¬ min pl (min pr (min pt pb)) = pr := by
          rw [hm]
          exact hbr.ne
        have hnet : ¬ min pl (min pr (min pt pb)) = pt := by
          rw [hm]
          exact h3.ne
        rw [if_neg hner, if_neg hnet, minSide, if_neg h1, if_neg h2, if_neg (not_le.mpr h3)]

/-- C2: on bounding-extent overlap, `handle_obstacle_collision` resolves the
side of minimum penetration depth (ties in the fixed order left, right, top,
bottom), clamps the ball's centre just outside that edge, scales the matching
velocity component by -0.8, and returns that side. -/
theorem obstacle_collision_min_penetration (b : Ball α) (o : Rect α) (h : overlaps b o) :
    b.handle_obstacle_collision o =
      (resolveAtSide b o
        (minSide (|b.x + b.radius - o.x|) (|b.x - b.radius - (o.x + o.w)|)
          (|b.y + b.radius - o.y|) (|b.y - b.radius - (o.y + o.h)|)),
       some (minSide (|b.x + b.radius - o.x|) (|b.x - b.radius - (o.x + o.w)|)
          (|b.y + b.radius - o.y|) (|b.y - b.radius - (o.y + o.h)|))) := by
  have hov := h
  unfold overlaps at hov
  unfold Ball.handle_obstacle_collision
  rw [if_pos hov]
  have hchain := minChain_spec (|b.x + b.radius - o.x|) (|b.x - b.radius - (o.x + o.w)|)
    (|b.y + b.radius - o.y|) (|b.y - b.radius - (o.y + o.h)|)
  by_cases hA : min (|b.x + b.radius - o.x|) (min (|b.x - b.radius - (o.x + o.w)|)
      (min (|b.y + b.radius - o.y|) (|b.y - b.radius - (o.y + o.h)|))) = |b.x + b.radius - o.x|
  · rw [if_pos hA] at hchain ⊢
    rw [← hchain]
    rfl
  · rw [if_neg hA] at hchain ⊢
    by_cases hB : min (|b.x + b.radius - o.x|) (min (|b.x - b.radius - (o.x + o.w)|)
        (min (|b.y + b.radius - o.y|) (|b.y - b.radius - (o.y + o.h)|))) = |b.x - b.radius - (o.x + o.w)|
    · rw [if_pos hB] at hchain ⊢
      rw [← hchain]
      rfl
    · rw [if_neg hB] at hchain ⊢
      by_cases hC : min (|b.x + b.radius - o.x|) (min (|b.x - b.radius - (o.x + o.w)|)
          (min (|b.y + b.radius - o.y|) (|b.y - b.radius - (o.y + o.h)|))) = |b.y + b.radius - o.y|
      · rw [if_pos hC] at hchain ⊢
        rw [← hchain]
        rfl
      · rw [if_neg hC] at hchain ⊢
        rw [← hchain]
        rfl

/-- C2 witness: a ball of radius 10 centred at (45, 60) with x-velocity 1
overlapping the rectangle (50, 50, 20, 20) is resolved to the left: x becomes
40, the x-velocity is scaled by -0.8, and the returned side is left. -/
theorem obstacle_collision_min_penetration_witness :
    overlaps (⟨45, 60, 10, 1, 0, true, false, 0.98⟩ : Ball ℚ) ⟨50, 50, 20, 20⟩ ∧
    ((⟨45, 60, 10, 1, 0, true, false, 0.98⟩ : Ball ℚ).handle_obstacle_collision
        ⟨50, 50, 20, 20⟩).1.x = 40 ∧
    ((⟨45, 60, 10, 1, 0, true, false, 0.98⟩ : Ball ℚ).handle_obstacle_collision
        ⟨50, 50, 20, 20⟩).1.velocity_x = 1 * (-0.8) ∧
    ((⟨45, 60, 10, 1, 0, true, false, 0.98⟩ : Ball ℚ).handle_obstacle_collision
        ⟨50, 50, 20, 20⟩).2 = some Side.left := by
  have h : overlaps (⟨45, 60, 10, 1, 0, true, false, 0.98⟩ : Ball ℚ) ⟨50, 50, 20, 20⟩ := by
    unfold overlaps
    norm_num
  have he := obstacle_collision_min_penetration
    (⟨45, 60, 10, 1, 0, true, false, 0.98⟩ : Ball ℚ) ⟨50, 50, 20, 20⟩ h
  refine ⟨h, ?_, ?_, ?_⟩ <;> rw [he] <;> norm_num [minSide, resolveAtSide]

/-- Helper: obstacle resolution never changes the radius, the flags or the
friction coefficient. -/
theorem obstacle_collision_preserves (b : Ball α) (o : Rect α) :
    (b.handle_obstacle_collision o).1.radius = b.radius ∧
    (b.handle_obstacle_collision o).1.is_moving = b.is_moving ∧
    (b.handle_obstacle_collision o).1.teleporting = b.teleporting ∧
    (b.handle_obstacle_collision o).1.friction = b.friction := by
  unfold Ball.handle_obstacle_collision
  dsimp only
  split_ifs <;> exact ⟨rfl, rfl, rfl, rfl⟩

/-- Helper: border resolution never changes the radius, the flags or the
friction coefficient. -/
theorem border_collision_preserves (b : Ball α) (bt W H : α) :
    (b.handle_border_collision bt W H).radius = b.radius ∧
    (b.handle_border_collision bt W H).is_moving = b.is_moving ∧
    (b.handle_border_collision bt W H).teleporting = b.teleporting ∧
    (b.handle_border_collision bt W H).friction = b.friction := by
  unfold Ball.handle_border_collision
  dsimp only
  split_ifs <;> exact ⟨rfl, rfl, rfl, rfl⟩

/-- C10: obstacle resolution either reports no overlap and returns the ball
unchanged, or resolves exactly one axis: on a left/right hit only x and the
x-velocity change, on a top/bottom hit only y and the y-velocity change; the
radius and both flags are never touched. -/
theorem obstacle_collision_frame (b : Ball α) (o : Rect α) :
    (¬ overlaps b o ∧ b.handle_obstacle_collision o = (b, none)) ∨
    (overlaps b o ∧ ∃ s, (b.handle_obstacle_collision o).2 = some s ∧
      (b.handle_obstacle_collision o).1.radius = b.radius ∧
      (b.handle_obstacle_collision o).1.is_moving = b.is_moving ∧
      (b.handle_obstacle_collision o).1.teleporting = b.teleporting ∧
      (((s = Side.left ∨ s = Side.right) ∧
          (b.handle_obstacle_collision o).1.y = b.y ∧
          (b.handle_obstacle_collision o).1.velocity_y = b.velocity_y) ∨
        ((s = Side.top ∨ s = Side.bottom) ∧
          (b.handle_obstacle_collision o).1.x = b.x ∧
          (b.handle_obstacle_collision o).1.velocity_x = b.velocity_x))) := by
  by_cases h : overlaps b o
  · right
    refine ⟨h, ?_⟩
    have hov := h
    unfold overlaps at hov
    unfold Ball.handle_obstacle_collision
    rw [if_pos hov]
    by_cases hA : min (|b.x + b.radius - o.x|) (min (|b.x - b.radius - (o.x + o.w)|)
        (min (|b.y + b.radius - o.y|) (|b.y - b.radius - (o.y + o.h)|))) = |b.x + b.radius - o.x|
    · rw [if_pos hA]
      exact ⟨Side.left, rfl, rfl, rfl, rfl, Or.inl ⟨Or.inl rfl, rfl, rfl⟩⟩
    · rw [if_neg hA]
      by_cases hB : min (|b.x + b.radius - o.x|) (min (|b.x - b.radius - (o.x + o.w)|)
          (min (|b.y + b.radius - o.y|) (|b.y - b.radius - (o.y + o.h)|))) = |b.x - b.radius - (o.x + o.w)|
      · rw [if_pos hB]
        exact ⟨Side.right, rfl, rfl, rfl, rfl, Or.inl ⟨Or.inr rfl, rfl, rfl⟩⟩
      · rw [if_neg hB]
        by_cases hC : min (|b.x + b.radius - o.x|) (min (|b.x - b.radius - (o.x + o.w)|)
            (min (|b.y + b.radius - o.y|) (|b.y - b.radius - (o.y + o.h)|))) = |b.y + b.radius - o.y|
        · rw [if_pos hC]
          exact ⟨Side.top, rfl, rfl, rfl, rfl, Or.inr ⟨Or.inl rfl, rfl, rfl⟩⟩
        · rw [if_neg hC]
          exact ⟨Side.bottom, rfl, rfl, rfl, rfl, Or.inr ⟨Or.inr rfl, rfl, rfl⟩⟩
  · left
    refine ⟨h, ?_⟩
    unfold overlaps at h
    unfold Ball.handle_obstacle_collision
    rw [if_neg h]

/-- C7: with a non-degenerate arena, a single border-collision call leaves
the position inside the playable band on both axes, each violated axis
independently clamping its coordinate and scaling its velocity component by
-0.8 (both axes may trigger in the same call), and an unviolated axis is left
untouched. -/
theorem border_collision_bounds (b : Ball α) (bt W H : α)
    (hW : bt + b.radius ≤ W - bt - b.radius) (hH : bt + b.radius ≤ H - bt - b.radius) :
    (bt + b.radius ≤ (b.handle_border_collision bt W H).x ∧
      (b.handle_border_collision bt W H).x ≤ W - bt - b.radius) ∧
    (bt + b.radius ≤ (b.handle_border_collision bt W H).y ∧
      (b.handle_border_collision bt W H).y ≤ H - bt - b.radius) ∧
    (b.handle_border_collision bt W H).x =
      (if b.x - b.radius < bt then bt + b.radius
       else if b.x + b.radius > W - bt then W - bt - b.radius else b.x) ∧
    (b.handle_border_collision bt W H).velocity_x =
      (if b.x - b.radius < bt ∨ b.x + b.radius > W - bt then b.velocity_x * (-0.8)
       else b.velocity_x) ∧
    (b.handle_border_collision bt W H).y =
      (if b.y - b.radius < bt then bt + b.radius
       else if b.y + b.radius > H - bt then H - bt - b.radius else b.y) ∧
    (b.handle_border_collision bt W H).velocity_y =
      (if b.y - b.radius < bt ∨ b.y + b.radius > H - bt then b.velocity_y * (-0.8)
       else b.velocity_y) := by
  unfold Ball.handle_border_collision
  have hxs : ¬ (bt + b.radius + b.radius > W - bt) := by
    intro hc
    linarith
  have hys : ¬ (bt + b.radius + b.radius > H - bt) := by
    intro hc
    linarith
  by_cases hx1 : b.x - b.radius < bt <;>
    by_cases hx2 : b.x + b.radius > W - bt <;>
      by_cases hy1 : b.y - b.radius < bt <;>
        by_cases hy2 : b.y + b.radius > H - bt <;>
          refine ⟨⟨?_, ?_⟩, ⟨?_, ?_⟩, ?_, ?_, ?_, ?_⟩ <;>
            (try simp [hx1, hx2, hy1, hy2, hxs, hys]) <;> (try linarith)

/-- C7 witness: a ball far outside the arena on both axes (x = -500,
y = 1000) with the game constants (border 30, window 800x600, radius 10) is
clamped into the playable band and both velocity components are scaled by
-0.8 in the same call. -/
theorem border_collision_bounds_witness :
    ((30:ℚ) + 10 ≤ 800 - 30 - 10) ∧ ((30:ℚ) + 10 ≤ 600 - 30 - 10) ∧
    (30 + (10:ℚ) ≤ ((⟨-500, 1000, 10, 3, -4, true, false, 0.98⟩ : Ball ℚ).handle_border_collision
        30 800 600).x ∧
      ((⟨-500, 1000, 10, 3, -4, true, false, 0.98⟩ : Ball ℚ).handle_border_collision
        30 800 600).x ≤ 800 - 30 - 10) ∧
    (30 + (10:ℚ) ≤ ((⟨-500, 1000, 10, 3, -4, true, false, 0.98⟩ : Ball ℚ).handle_border_collision
        30 800 600).y ∧
      ((⟨-500, 1000, 10, 3, -4, true, false, 0.98⟩ : Ball ℚ).handle_border_collision
        30 800 600).y ≤ 600 - 30 - 10) ∧
    ((⟨-500, 1000, 10, 3, -4, true, false, 0.98⟩ : Ball ℚ).handle_border_collision
        30 800 600).velocity_x = 3 * (-0.8) ∧
    ((⟨-500, 1000, 10, 3, -4, true, false, 0.98⟩ : Ball ℚ).handle_border_collision
        30 800 600).velocity_y = -4 * (-0.8) := by
  have h := border_collision_bounds (⟨-500, 1000, 10, 3, -4, true, false, 0.98⟩ : Ball ℚ)
    30 800 600 (by norm_num) (by norm_num)
  refine ⟨by norm_num, by norm_num, h.1, h.2.1, ?_, ?_⟩
  · rw [h.2.2.2.1]
    norm_num
  · rw [h.2.2.2.2.2]
    norm_num

/-- C8: one tick of an oscillating platform is exactly the spec's order of
operations — move by speed times direction, compare the displacement from the
base coordinate against the amplitude, and on reaching it flip the direction
and move once more — and nothing else on the platform changes. -/
theorem platform_update_oscillation (p : MovingPlatform α) (bt W H : α) :
    (p.move_type = MoveType.vertical →
      p.update bt W H = { p with y := (oscillateStep p.y p.base_y p.amp p.speed p.dir).1,
                                 dir := (oscillateStep p.y p.base_y p.amp p.speed p.dir).2 }) ∧
    (p.move_type = MoveType.horizontal →
      p.update bt W H = { p with x := (oscillateStep p.x p.base_x p.amp p.speed p.dir).1,
                                 dir := (oscillateStep p.x p.base_x p.amp p.speed p.dir).2 }) := by
  constructor
  · intro hv
    unfold MovingPlatform.update oscillateStep
    rw [hv]
    dsimp only
    split_ifs <;> rfl
  · intro hh
    unfold MovingPlatform.update oscillateStep
    rw [hh]
    dsimp only
    split_ifs <;> rfl

/-- Helper: border resolution maps zero velocity to zero velocity. -/
theorem border_collision_velocity_zero (b : Ball α) (bt W H : α)
    (hx : b.velocity_x = 0) (hy : b.velocity_y = 0) :
    (b.handle_border_collision bt W H).velocity_x = 0 ∧
    (b.handle_border_collision bt W H).velocity_y = 0 := by
  unfold Ball.handle_border_collision
  simp [hx, hy, apply_ite Ball.velocity_x, apply_ite Ball.velocity_y,
    apply_ite Ball.x, apply_ite Ball.y, apply_ite Ball.radius]

/-- Helper: obstacle resolution maps zero velocity to zero velocity. -/
theorem obstacle_collision_velocity_zero (b : Ball α) (o : Rect α)
    (hx : b.velocity_x = 0) (hy : b.velocity_y = 0) :
    (b.handle_obstacle_collision o).1.velocity_x = 0 ∧
    (b.handle_obstacle_collision o).1.velocity_y = 0 := by
  unfold Ball.handle_obstacle_collision
  dsimp only
  split_ifs <;> simp [hx, hy]

/-- Helper: platform collision never changes the moving flag. -/
theorem platform_collision_preserves_moving (b : Ball α) (p : MovingPlatform α) :
    (b.handle_platform_collision p).is_moving = b.is_moving := by
  have h := (obstacle_collision_preserves b ⟨p.x, p.y, p.width, p.height⟩).2.1
  unfold Ball.handle_platform_collision
  dsimp only
  rcases hr : (b.handle_obstacle_collision ⟨p.x, p.y, p.width, p.height⟩).2 with _ | s
  · exact h
  · dsimp only
    split_ifs <;> exact h

/-- Helper: repulsor collision never changes the moving flag. -/
theorem repulsor_collision_preserves_moving (b : Ball ℝ) (rep : Repulsor ℝ) (lvl : ℤ) :
    (b.handle_repulsor_collision rep lvl).1.is_moving = b.is_moving := by
  unfold Ball.handle_repulsor_collision
  dsimp only
  split_ifs <;> rfl

/-- C3 (amended): along every trace in which the platform and repulsor
handlers are only invoked on a moving ball (the game loop's guard), whenever
the moving flag is false both velocity components are exactly zero. -/
theorem motionless_velocity_zero (b : Ball ℝ) (h : ReachableBallGuarded b) :
    b.is_moving = false → b.velocity_x = 0 ∧ b.velocity_y = 0 := by
  induction h with
  | init x y r =>
    intro _
    exact ⟨rfl, rfl⟩
  | launch b a p mp hb ih =>
    intro hm
    simp only [Ball.launch] at hm
    exact absurd hm (by simp)
  | stop b hb ih =>
    intro _
    exact ⟨rfl, rfl⟩
  | update b hb ih =>
    unfold Ball.update
    by_cases hg : (b.is_moving && !b.teleporting) = true
    · rw [if_pos hg]
      dsimp only
      split_ifs with hslow
      · intro _
        exact ⟨rfl, rfl⟩
      · intro hm
        rw [hm] at hg
        simp at hg
    · rw [if_neg hg]
      exact ih
  | border b bt W H hb ih =>
    intro hm
    rw [(border_collision_preserves b bt W H).2.1] at hm
    exact border_collision_velocity_zero b bt W H (ih hm).1 (ih hm).2
  | obstacle b o hb ih =>
    intro hm
    rw [(obstacle_collision_preserves b o).2.1] at hm
    exact obstacle_collision_velocity_zero b o (ih hm).1 (ih hm).2
  | platform b p hb hmov ih =>
    intro hm
    rw [platform_collision_preserves_moving b p, hmov] at hm
    exact absurd hm (by simp)
  | repulsor b rep lvl hb hmov ih =>
    intro hm
    rw [repulsor_collision_preserves_moving b rep lvl, hmov] at hm
    exact absurd hm (by simp)
  | teleport b hx hy hb ih =>
    unfold Ball.teleport_to_hole
    dsimp only
    split_ifs with hclose
    · intro _
      exact ⟨rfl, rfl⟩
    · intro hm
      dsimp only at hm
      exact ⟨by rw [(ih hm).1]; ring, by rw [(ih hm).2]; ring⟩

/-- C3 witness: the invariant theorem applied at a freshly constructed ball,
which is reachable, motionless, and has zero velocity. -/
theorem motionless_velocity_zero_witness :
    (mkBall (0:ℝ) 0 10).is_moving = false ∧
    (mkBall (0:ℝ) 0 10).velocity_x = 0 ∧ (mkBall (0:ℝ) 0 10).velocity_y = 0 := by
  have h := motionless_velocity_zero (mkBall (0:ℝ) 0 10)
    (ReachableBallGuarded.init 0 0 10) rfl
  exact ⟨rfl, h.1, h.2⟩

/-- C3 counterexample: under the unrestricted operations of the claim, a
stationary overlapping ball handed to the platform handler picks up the
platform's speed transfer while its moving flag stays false — a reachable
state that is motionless with nonzero velocity. -/
theorem motionless_velocity_zero_cex :
    ReachableBall ((mkBall (100:ℝ) 100 10).handle_platform_collision
      ⟨95, 95, 20, 20, MoveType.horizontal, 95, 95, 50, 1, 1, 0, 0⟩) ∧
    ((mkBall (100:ℝ) 100 10).handle_platform_collision
      ⟨95, 95, 20, 20, MoveType.horizontal, 95, 95, 50, 1, 1, 0, 0⟩).is_moving = false ∧
    ((mkBall (100:ℝ) 100 10).handle_platform_collision
      ⟨95, 95, 20, 20, MoveType.horizontal, 95, 95, 50, 1, 1, 0, 0⟩).velocity_x = 0.5 := by
  refine ⟨ReachableBall.platform _ _ (ReachableBall.init 100 100 10), ?_, ?_⟩ <;>
    · unfold Ball.handle_platform_collision Ball.handle_obstacle_collision mkBall
      norm_num

/-- Helper: the predictor's integration step equals the swapped-order
integration of a live ball viewed through the scratch state. -/
theorem moveThenFriction_toBall (s : SimState α) :
    moveThenFriction (toBall s) = toBall (simIntegrate s) := rfl

/-- Helper: the predictor's border bounce is exactly the live
`handle_border_collision` at the game constants, transported along `toSim`. -/
theorem sim_border_refines (s : SimState α) :
    toSim ((toBall s).handle_border_collision 30 800 600) = simBorders s := by
  unfold Ball.handle_border_collision simBorders toBall toSim
  dsimp only
  have hx : ¬ ((30:α) + 10 + 10 > 800 - 30) := by norm_num
  have hy : ¬ ((30:α) + 10 + 10 > 600 - 30) := by norm_num
  by_cases h1 : s.x - 10 < 30 <;>
    by_cases h2 : s.x + 10 > 800 - 30 <;>
      by_cases h3 : s.y - 10 < 30 <;>
        by_cases h4 : s.y + 10 > 600 - 30 <;>
          simp [h1, h2, h3, h4, hx, hy]

/-- Helper: the predictor's per-rectangle resolution is exactly the live
`handle_obstacle_collision` for a ball of the game's radius, transported
along `toSim`. -/
theorem sim_rect_refines (b : Ball α) (hr : b.radius = 10) (o : Rect α) :
    toSim ((b.handle_obstacle_collision o).1) = simResolveRect (toSim b) o := by
  obtain ⟨bx, byy, br, bvx, bvy, bm, btl, bf⟩ := b
  simp only at hr
  subst hr
  unfold Ball.handle_obstacle_collision simResolveRect toSim
  dsimp only
  split_ifs <;> rfl

/-- Helper: the predictor's obstacle pass over a snapshot is the fold of the
live obstacle resolution, transported along `toSim`. -/
theorem sim_fold_refines (obstacles : List (Rect α)) (b : Ball α) (hr : b.radius = 10) :
    toSim (resolveObstaclesBall b obstacles) =
      List.foldl simResolveRect (toSim b) obstacles := by
  induction obstacles generalizing b with
  | nil => rfl
  | cons o rest ih =>
    unfold resolveObstaclesBall
    dsimp only [List.foldl]
    have hr2 : ((b.handle_obstacle_collision o).1).radius = 10 := by
      rw [(obstacle_collision_preserves b o).1, hr]
    have := ih ((b.handle_obstacle_collision o).1) hr2
    unfold resolveObstaclesBall at this
    rw [this, sim_rect_refines b hr o]

/-- C1 (amended): the predictor's per-step update applies exactly the live
border bounce and the live rectangle resolution (the same functions, with the
game constants, in course order, with no repulsors and no speed transfer),
but its integration advances the position by the pre-friction velocity and
applies friction afterwards, whereas live `Ball.update` applies friction
first and advances by the post-friction velocity — so the two integrations
agree on velocities while their positions differ by the friction factor. -/
theorem predictor_step_refines :
    (∀ (s : SimState α) (obstacles : List (Rect α)),
      simStep obstacles s =
        toSim (resolveObstaclesBall
          ((moveThenFriction (toBall s)).handle_border_collision 30 800 600) obstacles)) ∧
    (∀ b : Ball α, b.is_moving = true → b.teleporting = false →
      ¬(|b.velocity_x * b.friction| < 0.1 ∧ |b.velocity_y * b.friction| < 0.1) →
      b.update = frictionThenMove b) ∧
    (∀ b : Ball α,
      (moveThenFriction b).velocity_x = (frictionThenMove b).velocity_x ∧
      (moveThenFriction b).velocity_y = (frictionThenMove b).velocity_y ∧
      (moveThenFriction b).x = b.x + b.velocity_x ∧
      (frictionThenMove b).x = b.x + b.velocity_x * b.friction ∧
      (moveThenFriction b).y = b.y + b.velocity_y ∧
      (frictionThenMove b).y = b.y + b.velocity_y * b.friction) := by
  refine ⟨?_, ?_, ?_⟩
  · intro s obstacles
    have h10 : ((moveThenFriction (toBall s)).handle_border_collision 30 800 600).radius = 10 :=
      (border_collision_preserves _ 30 800 600).1
    rw [sim_fold_refines obstacles _ h10, moveThenFriction_toBall, sim_border_refines]
    rfl
  · intro b hm ht hns
    unfold Ball.update frictionThenMove
    rw [hm, ht]
    dsimp only
    rw [if_neg hns]
    rfl
  · intro b
    exact ⟨rfl, rfl, rfl, rfl, rfl, rfl⟩

/-- Helper: one unfolding of the predictor's loop. -/
theorem predictLoop_succ (obstacles : List (Rect α)) (n : Nat) (s : SimState α) :
    predictLoop obstacles (n + 1) s =
      ((simStep obstacles s).x, (simStep obstacles s).y) ::
        (if |(simStep obstacles s).vx| < 0.1 ∧ |(simStep obstacles s).vy| < 0.1 then []
         else predictLoop obstacles n (simStep obstacles s)) := rfl

/-- C1 counterexample: from (100, 100) at angle 0, power 150 (max 300), on an
empty obstacle snapshot, the live ball sits at x = 107.35 after its first
tick (friction applied before integration), while the predictor's second
point has x = 107.5 (integration before friction): the position sequences
are not the same. -/
theorem predictor_step_refines_cex :
    (predict_trajectory [] 100 100 0 150)[1]? = some ((107.5 : ℝ), 100) ∧
    ((((mkBall (100:ℝ) 100 10).launch 0 150 300).update).handle_border_collision
        30 800 600).x = 107.35 ∧
    (107.5 : ℝ) ≠ 107.35 := by
  have hvx : ((150:ℝ) / 300 * 15) * Real.cos (radians 0) = 7.5 := by
    unfold radians
    simp
    norm_num
  have hvy : -((150:ℝ) / 300 * 15) * Real.sin (radians 0) = 0 := by
    unfold radians
    simp
  refine ⟨?_, ?_, by norm_num⟩
  · unfold predict_trajectory
    dsimp only
    rw [hvx, hvy, show (200:Nat) = 199 + 1 from rfl, predictLoop_succ]
    have hstep : simStep ([] : List (Rect ℝ)) ⟨100, 100, 7.5, 0⟩ =
        ⟨107.5, 100, 7.35, 0⟩ := by
      unfold simStep simIntegrate simBorders
      norm_num
    rw [hstep]
    simp
  · unfold Ball.launch mkBall
    dsimp only
    rw [hvx, hvy]
    unfold Ball.update
    dsimp only
    rw [if_neg (by rw [show (7.5:ℝ) * 0.98 = 7.35 by norm_num, show (0:ℝ) * 0.98 = 0 by norm_num,
      abs_of_nonneg (by norm_num : (0:ℝ) ≤ 7.35), abs_zero]; norm_num :
      ¬(|(7.5:ℝ) * 0.98| < 0.1 ∧ |(0:ℝ) * 0.98| < 0.1))]
    unfold Ball.handle_border_collision
    dsimp only
    norm_num

/-- Helper: launching at angle 0 gives velocity ((power/max_power)*15, 0). -/
theorem launch_angle_zero (b : Ball ℝ) (power max_power : ℝ) :
    (b.launch 0 power max_power).velocity_x = (power / max_power) * 15 ∧
    (b.launch 0 power max_power).velocity_y = 0 := by
  unfold Ball.launch radians
  constructor <;> simp

/-- C4 (amended): launch sets the moving flag and the velocity to
(speed·cos θ, -speed·sin θ) with speed = (power/maxPower)·15, and whenever
0 ≤ power ≤ maxPower with maxPower positive — the range the power slider
produces — the resulting speed is at most 15 units per tick. -/
theorem launch_speed_cap (b : Ball ℝ) (angle power max_power : ℝ)
    (h0 : 0 ≤ power) (h1 : power ≤ max_power) (h2 : 0 < max_power) :
    (b.launch angle power max_power).is_moving = true ∧
    (b.launch angle power max_power).velocity_x
      = ((power / max_power) * 15) * Real.cos (radians angle) ∧
    (b.launch angle power max_power).velocity_y
      = -((power / max_power) * 15) * Real.sin (radians angle) ∧
    hypot (b.launch angle power max_power).velocity_x
      (b.launch angle power max_power).velocity_y ≤ 15 := by
  refine ⟨rfl, rfl, rfl, ?_⟩
  unfold hypot Ball.launch
  dsimp only
  have hs0 : 0 ≤ (power / max_power) * 15 := by positivity
  have hs15 : (power / max_power) * 15 ≤ 15 := by
    have hq : power / max_power ≤ 1 := (div_le_one h2).mpr h1
    nlinarith
  have hsq : ((power / max_power) * 15 * Real.cos (radians angle)) ^ 2 +
      (-((power / max_power) * 15) * Real.sin (radians angle)) ^ 2 =
      ((power / max_power) * 15) ^ 2 := by
    have ht := Real.sin_sq_add_cos_sq (radians angle)
    nlinarith [ht]
  rw [hsq, Real.sqrt_sq hs0]
  exact hs15

/-- C4 witness: the cap theorem applied at angle 0, power 150, max power
300 — a slider-range launch. -/
theorem launch_speed_cap_witness :
    (0:ℝ) ≤ 150 ∧ (150:ℝ) ≤ 300 ∧ (0:ℝ) < 300 ∧
    ((mkBall (0:ℝ) 0 10).launch 0 150 300).is_moving = true ∧
    hypot ((mkBall (0:ℝ) 0 10).launch 0 150 300).velocity_x
      ((mkBall (0:ℝ) 0 10).launch 0 150 300).velocity_y ≤ 15 := by
  have h := launch_speed_cap (mkBall (0:ℝ) 0 10) 0 150 300
    (by norm_num) (by norm_num) (by norm_num)
  exact ⟨by norm_num, by norm_num, by norm_num, h.1, h.2.2.2⟩

/-- C4 counterexample: launch applies no clamp, so power 600 against max
power 300 at angle 0 yields x-velocity 30 and speed 30 > 15 — the hard cap
fails for arbitrary power. -/
theorem launch_speed_cap_cex :
    ((mkBall (0:ℝ) 0 10).launch 0 600 300).velocity_x = 30 ∧
    ((mkBall (0:ℝ) 0 10).launch 0 600 300).velocity_y = 0 ∧
    hypot ((mkBall (0:ℝ) 0 10).launch 0 600 300).velocity_x
      ((mkBall (0:ℝ) 0 10).launch 0 600 300).velocity_y > 15 := by
  obtain ⟨hx, hy⟩ := launch_angle_zero (mkBall (0:ℝ) 0 10) 600 300
  have hx30 : ((mkBall (0:ℝ) 0 10).launch 0 600 300).velocity_x = 30 := by
    rw [hx]
    norm_num
  refine ⟨hx30, hy, ?_⟩
  rw [hx30, hy]
  unfold hypot
  rw [show (30:ℝ)^2 + 0^2 = 30^2 by norm_num, Real.sqrt_sq (by norm_num : (0:ℝ) ≤ 30)]
  norm_num

/-- C5 (amended): a stationary ball at (100, 100) launched at angle 0, power
150 of max 300, gets velocity exactly (7.5, 0); one `Ball.update` tick (the
ball is moving and not teleporting) applies friction first and then
integrates, giving velocity exactly (7.35, 0) and position exactly
(107.35, 100). -/
theorem launch_tick_scenario :
    ((mkBall (100:ℝ) 100 10).launch 0 150 300).velocity_x = 7.5 ∧
    ((mkBall (100:ℝ) 100 10).launch 0 150 300).velocity_y = 0 ∧
    ((mkBall (100:ℝ) 100 10).launch 0 150 300).is_moving = true ∧
    ((mkBall (100:ℝ) 100 10).launch 0 150 300).teleporting = false ∧
    (((mkBall (100:ℝ) 100 10).launch 0 150 300).update).velocity_x = 7.35 ∧
    (((mkBall (100:ℝ) 100 10).launch 0 150 300).update).velocity_y = 0 ∧
    (((mkBall (100:ℝ) 100 10).launch 0 150 300).update).x = 107.35 ∧
    (((mkBall (100:ℝ) 100 10).launch 0 150 300).update).y = 100 := by
  obtain ⟨hx, hy⟩ := launch_angle_zero (mkBall (100:ℝ) 100 10) 150 300
  have hx75 : ((mkBall (100:ℝ) 100 10).launch 0 150 300).velocity_x = 7.5 := by
    rw [hx]
    norm_num
  refine ⟨hx75, hy, rfl, rfl, ?_, ?_, ?_, ?_⟩ <;>
    · unfold Ball.update
      rw [show (((mkBall (100:ℝ) 100 10).launch 0 150 300).is_moving &&
          !((mkBall (100:ℝ) 100 10).launch 0 150 300).teleporting) = true from rfl,
        if_pos rfl]
      dsimp only
      rw [if_neg (by
        rw [show ((mkBall (100:ℝ) 100 10).launch 0 150 300).friction = 0.98 from rfl,
          hx75, hy]
        rw [show (7.5:ℝ) * 0.98 = 7.35 by norm_num, show (0:ℝ) * 0.98 = 0 by norm_num,
          abs_of_nonneg (by norm_num : (0:ℝ) ≤ 7.35), abs_zero]
        norm_num)]
      dsimp only
      simp only [hx75, hy,
        show ((mkBall (100:ℝ) 100 10).launch 0 150 300).friction = 0.98 from rfl,
        show ((mkBall (100:ℝ) 100 10).launch 0 150 300).x = 100 from rfl,
        show ((mkBall (100:ℝ) 100 10).launch 0 150 300).y = 100 from rfl]
      norm_num

/-- C5 counterexample: after the tick the x-coordinate is exactly 107.35,
which is 0.15 away from the claimed 107.5 — more than the friction-scale
tolerance, so the position is not ≈ (107.5, 100). -/
theorem launch_tick_scenario_cex :
    (((mkBall (100:ℝ) 100 10).launch 0 150 300).update).x = 107.35 ∧
    ¬ (|(107.35:ℝ) - 107.5| ≤ 0.1) := by
  obtain ⟨hx, hy⟩ := launch_angle_zero (mkBall (100:ℝ) 100 10) 150 300
  have hx75 : ((mkBall (100:ℝ) 100 10).launch 0 150 300).velocity_x = 7.5 := by
    rw [hx]
    norm_num
  constructor
  · unfold Ball.update
    rw [show (((mkBall (100:ℝ) 100 10).launch 0 150 300).is_moving &&
        !((mkBall (100:ℝ) 100 10).launch 0 150 300).teleporting) = true from rfl,
      if_pos rfl]
    dsimp only
    rw [if_neg (by
      rw [show ((mkBall (100:ℝ) 100 10).launch 0 150 300).friction = 0.98 from rfl,
        hx75, hy]
      rw [show (7.5:ℝ) * 0.98 = 7.35 by norm_num, show (0:ℝ) * 0.98 = 0 by norm_num,
        abs_of_nonneg (by norm_num : (0:ℝ) ≤ 7.35), abs_zero]
      norm_num)]
    dsimp only
    simp only [hx75, hy,
      show ((mkBall (100:ℝ) 100 10).launch 0 150 300).friction = 0.98 from rfl,
      show ((mkBall (100:ℝ) 100 10).launch 0 150 300).x = 100 from rfl]
    norm_num
  · rw [show (107.35:ℝ) - 107.5 = -(0.15) by norm_num, abs_neg,
      abs_of_nonneg (by norm_num : (0:ℝ) ≤ 0.15)]
    norm_num

/-- Helper: the hypotenuse of (0, 0) is 0. -/
theorem hypot_zero_zero : hypot 0 0 = 0 := by
  unfold hypot
  norm_num

/-- Helper: a zero hypotenuse forces both components to be zero. -/
theorem hypot_eq_zero (a b : ℝ) (h : hypot a b = 0) : a = 0 ∧ b = 0 := by
  unfold hypot at h
  have hs : a ^ 2 + b ^ 2 = 0 := by
    have := Real.sqrt_eq_zero (by positivity : (0:ℝ) ≤ a ^ 2 + b ^ 2)
    exact this.mp h
  constructor <;> nlinarith

/-- Helper: the hypotenuse of a unit vector scaled by a nonnegative factor is
that factor. -/
theorem hypot_unit_scale (dx dy c : ℝ) (hd : 0 < hypot dx dy) (hc0 : 0 ≤ c) :
    hypot (dx / hypot dx dy * c) (dy / hypot dx dy * c) = c := by
  have hsum : dx ^ 2 + dy ^ 2 = (hypot dx dy) ^ 2 := by
    unfold hypot
    rw [Real.sq_sqrt (by positivity)]
  have hne : hypot dx dy ≠ 0 := ne_of_gt hd
  have hval : (dx / hypot dx dy * c) ^ 2 + (dy / hypot dx dy * c) ^ 2 = c ^ 2 := by
    field_simp
    nlinarith [hsum]
  rw [show hypot (dx / hypot dx dy * c) (dy / hypot dx dy * c) =
    Real.sqrt ((dx / hypot dx dy * c) ^ 2 + (dy / hypot dx dy * c) ^ 2) from rfl]
  rw [hval, Real.sqrt_sq hc0]

/-- C6: the repulsor handler's degenerate-case guards.  On contact with zero
incoming velocity, level 4 launches the ball at speed exactly 4·1.0 along the
contact normal while level 5 leaves the velocity unchanged; and a ball whose
centre coincides with the repulsor's centre is pushed along +x by the sum of
the radii plus 0.1 on every level, never dividing by the zero distance. -/
theorem repulsor_collision_guards (b : Ball ℝ) (rep : Repulsor ℝ)
    (hc : hypot (b.x - rep.x) (b.y - rep.y) < b.radius + rep.radius) :
    ((b.velocity_x = 0 ∧ b.velocity_y = 0) →
      (hypot ((b.handle_repulsor_collision rep 4).1.velocity_x)
             ((b.handle_repulsor_collision rep 4).1.velocity_y) = 4 ∧
       (b.handle_repulsor_collision rep 5).1.velocity_x = b.velocity_x ∧
       (b.handle_repulsor_collision rep 5).1.velocity_y = b.velocity_y)) ∧
    (b.x = rep.x → b.y = rep.y → ∀ lvl : ℤ,
      (b.handle_repulsor_collision rep lvl).1.x = b.x + ((b.radius + rep.radius) + 0.1) ∧
      (b.handle_repulsor_collision rep lvl).1.y = b.y) := by
  constructor
  · rintro ⟨hvx, hvy⟩
    refine ⟨?_, ?_, ?_⟩
    · unfold Ball.handle_repulsor_collision
      rw [if_pos hc]
      dsimp only
      rw [if_pos (by norm_num : ((4:ℤ) = 4))]
      by_cases hd : hypot (b.x - rep.x) (b.y - rep.y) > 0
      · rw [if_pos hd]
        dsimp only
        rw [hvx, hvy, hypot_zero_zero,
          show max (0:ℝ) 1 = 1 from max_eq_right (by norm_num), mul_one]
        exact hypot_unit_scale (b.x - rep.x) (b.y - rep.y) 4 hd (by norm_num)
      · rw [if_neg hd]
        dsimp only
        rw [hvx, hvy, hypot_zero_zero,
          show max (0:ℝ) 1 = 1 from max_eq_right (by norm_num), mul_one,
          show hypot ((1:ℝ) * 4) (0 * 4) = Real.sqrt ((1 * 4) ^ 2 + (0 * 4) ^ 2) from rfl,
          show ((1:ℝ) * 4) ^ 2 + (0 * 4) ^ 2 = 4 ^ 2 by norm_num,
          Real.sqrt_sq (by norm_num : (0:ℝ) ≤ 4)]
    · unfold Ball.handle_repulsor_collision
      rw [if_pos hc]
      dsimp only
      rw [if_neg (by norm_num : ¬((5:ℤ) = 4)), if_pos (by norm_num : ((5:ℤ) = 5))]
      by_cases hd : hypot (b.x - rep.x) (b.y - rep.y) > 0
      · rw [if_pos hd]
        dsimp only
        rw [hvx, hvy, hypot_zero_zero, if_neg (by norm_num : ¬((0:ℝ) > 0))]
      · rw [if_neg hd]
        dsimp only
        rw [hvx, hvy, hypot_zero_zero, if_neg (by norm_num : ¬((0:ℝ) > 0))]
    · unfold Ball.handle_repulsor_collision
      rw [if_pos hc]
      dsimp only
      rw [if_neg (by norm_num : ¬((5:ℤ) = 4)), if_pos (by norm_num : ((5:ℤ) = 5))]
      by_cases hd : hypot (b.x - rep.x) (b.y - rep.y) > 0
      · rw [if_pos hd]
        dsimp only
        rw [hvx, hvy, hypot_zero_zero, if_neg (by norm_num : ¬((0:ℝ) > 0))]
      · rw [if_neg hd]
        dsimp only
        rw [hvx, hvy, hypot_zero_zero, if_neg (by norm_num : ¬((0:ℝ) > 0))]
  · intro hx hy lvl
    have hd0 : hypot (b.x - rep.x) (b.y - rep.y) = 0 := by
      rw [hx, hy, sub_self, sub_self]
      exact hypot_zero_zero
    unfold Ball.handle_repulsor_collision
    rw [if_pos hc]
    dsimp only
    rw [if_neg (by rw [hd0]; norm_num : ¬(hypot (b.x - rep.x) (b.y - rep.y) > 0))]
    try dsimp only
    by_cases h4 : lvl = (4:ℤ)
    · rw [if_pos h4]
      exact ⟨rfl, rfl⟩
    · rw [if_neg h4]
      by_cases h5 : lvl = (5:ℤ)
      · rw [if_pos h5]
        try dsimp only
        split_ifs <;> exact ⟨rfl, rfl⟩
      · rw [if_neg h5]
        exact ⟨rfl, rfl⟩

/-- C6 witness: a ball of radius 10 resting exactly on a repulsor of radius
15 at (5, 5) with zero velocity — contact holds, the level-4 rebound speed is
exactly 4, the level-5 rebound leaves the velocity unchanged, and the ball is
pushed along +x by 25.1. -/
theorem repulsor_collision_guards_witness :
    hypot ((5:ℝ) - 5) ((5:ℝ) - 5) < (10:ℝ) + 15 ∧
    hypot (((⟨5, 5, 10, 0, 0, true, false, 0.98⟩ : Ball ℝ).handle_repulsor_collision
        ⟨5, 5, 15, 0, 0⟩ 4).1.velocity_x)
      (((⟨5, 5, 10, 0, 0, true, false, 0.98⟩ : Ball ℝ).handle_repulsor_collision
        ⟨5, 5, 15, 0, 0⟩ 4).1.velocity_y) = 4 ∧
    ((⟨5, 5, 10, 0, 0, true, false, 0.98⟩ : Ball ℝ).handle_repulsor_collision
        ⟨5, 5, 15, 0, 0⟩ 5).1.velocity_x = 0 ∧
    ((⟨5, 5, 10, 0, 0, true, false, 0.98⟩ : Ball ℝ).handle_repulsor_collision
        ⟨5, 5, 15, 0, 0⟩ 7).1.x = 5 + ((10:ℝ) + 15 + 0.1) := by
  have hc : hypot ((5:ℝ) - 5) ((5:ℝ) - 5) < (10:ℝ) + 15 := by
    rw [sub_self, hypot_zero_zero]
    norm_num
  have h := repulsor_collision_guards (⟨5, 5, 10, 0, 0, true, false, 0.98⟩ : Ball ℝ)
    ⟨5, 5, 15, 0, 0⟩ hc
  have h1 := h.1 ⟨rfl, rfl⟩
  have h2 := h.2 rfl rfl 7
  exact ⟨hc, h1.1, h1.2.1, h2.1⟩

/-- Helper: the predictor's loop never produces more points than its fuel. -/
theorem predictLoop_length_le (obstacles : List (Rect α)) (n : Nat) (s : SimState α) :
    (predictLoop obstacles n s).length ≤ n := by
  induction n generalizing s with
  | zero => exact le_refl 0
  | succ m ih =>
    rw [predictLoop_succ]
    dsimp only [List.length_cons]
    split_ifs
    · simp
    · exact Nat.succ_le_succ (ih _)

/-- Helper: one simulation step maps zero velocity to zero velocity. -/
theorem simStep_velocity_zero (obstacles : List (Rect α)) (s : SimState α)
    (hx : s.vx = 0) (hy : s.vy = 0) :
    (simStep obstacles s).vx = 0 ∧ (simStep obstacles s).vy = 0 := by
  unfold simStep
  have hint : (simIntegrate s).vx = 0 ∧ (simIntegrate s).vy = 0 := by
    unfold simIntegrate
    rw [hx, hy]
    norm_num
  have hbor : (simBorders (simIntegrate s)).vx = 0 ∧ (simBorders (simIntegrate s)).vy = 0 := by
    unfold simBorders
    simp [hint.1, hint.2, apply_ite SimState.vx, apply_ite SimState.vy,
      apply_ite SimState.x, apply_ite SimState.y]
  generalize hgen : simBorders (simIntegrate s) = t at hbor
  clear hgen hint hx hy
  induction obstacles generalizing t with
  | nil => exact hbor
  | cons o rest ih =>
    dsimp only [List.foldl]
    refine ih (simResolveRect t o) ?_
    unfold simResolveRect
    dsimp only
    split_ifs <;> simp [hbor.1, hbor.2]

/-- C9: the trajectory predictor always terminates with a finite path of at
most 201 points (the start plus up to 200 simulation steps), it stops early
as soon as both simulated velocity components drop below 0.1 in magnitude,
and at power exactly 0 it degrades gracefully to a two-point path that starts
at the start point (the zero velocity survives the first step, which
immediately triggers the early exit; no division is involved). -/
theorem predict_trajectory_terminates :
    (∀ (obstacles : List (Rect ℝ)) (x0 y0 angle power : ℝ),
      (predict_trajectory obstacles x0 y0 angle power).length ≤ 201) ∧
    (∀ (obstacles : List (Rect ℝ)) (n : Nat) (s : SimState ℝ),
      |(simStep obstacles s).vx| < 0.1 → |(simStep obstacles s).vy| < 0.1 →
      predictLoop obstacles (n + 1) s =
        [((simStep obstacles s).x, (simStep obstacles s).y)]) ∧
    (∀ (obstacles : List (Rect ℝ)) (x0 y0 angle : ℝ),
      (predict_trajectory obstacles x0 y0 angle 0).length = 2 ∧
      (predict_trajectory obstacles x0 y0 angle 0)[0]? = some (x0, y0)) := by
  refine ⟨?_, ?_, ?_⟩
  · intro obstacles x0 y0 angle power
    unfold predict_trajectory
    dsimp only [List.length_cons]
    exact Nat.succ_le_succ (predictLoop_length_le obstacles 200 _)
  · intro obstacles n s h1 h2
    rw [predictLoop_succ, if_pos ⟨h1, h2⟩]
  · intro obstacles x0 y0 angle
    have hvx : ((0:ℝ) / 300 * 15) * Real.cos (radians angle) = 0 := by norm_num
    have hvy : -((0:ℝ) / 300 * 15) * Real.sin (radians angle) = 0 := by norm_num
    unfold predict_trajectory
    dsimp only
    rw [hvx, hvy]
    obtain ⟨hsx, hsy⟩ := simStep_velocity_zero obstacles ⟨x0, y0, 0, 0⟩ rfl rfl
    rw [show (200:Nat) = 199 + 1 from rfl, predictLoop_succ,
      if_pos ⟨by rw [hsx]; norm_num, by rw [hsy]; norm_num⟩]
    exact ⟨rfl, rfl⟩

end Theorems

end MiniGolf
